import Mathlib

/-
Shallow embedding of the about:trackers tracker-observation and auto-block
engine (src/aboutTrackers/lib/main.js), together with theorems checking the
specified behavior of the Auto-Block Policy, the Tracking Ledger, the Cookie
Suppression Coordinator, the Request Evaluation Pipeline and the Grace Window.

Stored enforcement values mirror the JavaScript values that ever reach
storage.blocked[tracker]: the string constants AUTO_BLOCK_COOKIE ("cookie")
and AUTO_BLOCK_CONNECTION ("connection") written by updateAutoBlock, the
numbers 0/1 written by the toggle handler (user-set), and undefined.
JavaScript maps are rendered as association lists (trackers ledger, whose
keys must be enumerable) or as total functions with an explicit undefined
default (blocked). External collaborators (cookie counts, preference domain
sets) form an Env record of pure functions.
-/

namespace AboutTrackers

def CONNECTION_MULTIPLIER : Nat := 2
def DEFAULT_AUTO_BLOCK_THRESHOLD : Nat := 5
def RELOAD_AUTO_ACCEPT_DURATION : Nat := 10000
def TYPE_DOCUMENT : Nat := 6

/-- Values that can be stored in storage.blocked for a tracker: undefined,
the auto strings "cookie" / "connection", or a user-set number. -/
inductive BlockedVal where
  | undefined : BlockedVal
  | cookie : BlockedVal
  | connection : BlockedVal
  | num : Nat → BlockedVal
deriving DecidableEq, Repr

/-- JavaScript truthiness of a stored blocked value. -/
def truthy : BlockedVal → Bool
  | .undefined => false
  | .cookie => true
  | .connection => true
  | .num n => decide (n ≠ 0)

/-- Whether the stored value is a number, i.e. user-set (origin UserSet). -/
def isNum : BlockedVal → Bool
  | .num _ => true
  | _ => false

/-- Enforcement levels of the specification: None, Cookie, Connection. -/
inductive Level where
  | none : Level
  | cookie : Level
  | connection : Level
deriving DecidableEq, Repr

/-- Interpretation of a stored value as a specification-level enforcement
level: "cookie" is Cookie; "connection" and any truthy user number block the
connection; undefined and a zero user number are None. -/
def levelOfVal : BlockedVal → Level
  | .undefined => .none
  | .cookie => .cookie
  | .connection => .connection
  | .num n => if n = 0 then .none else .connection

/-- Severity order on levels: None < Cookie < Connection. -/
def levelOrd : Level → Nat
  | .none => 0
  | .cookie => 1
  | .connection => 2

/-- External collaborators: the cookie-presence count per domain and the two
preference-supplied domain sets. -/
structure Env where
  cookieCount : String → Nat
  knownNotTrackers : String → Bool
  potentialTrackers : String → Bool

/-- Lookup in the trackers association list (storage.trackers). -/
def lookupTracker : List (String × List String) → String → Option (List String)
  | [], _ => none
  | (k, v) :: rest, key => if k = key then some v else lookupTracker rest key

/-- Set a key in the trackers association list, appending if absent. -/
def setTracker : List (String × List String) → String → List String →
    List (String × List String)
  | [], key, v => [(key, v)]
  | (k, w) :: rest, key, v =>
    if k = key then (k, v) :: rest else (k, w) :: setTracker rest key v

/-- Add a domain to a set-like list of domains (idempotent key insertion). -/
def addSite (l : List String) (d : String) : List String :=
  if d ∈ l then l else l ++ [d]

/-- The engine's mutable module state: storage.autoBlockThreshold,
storage.blocked, storage.trackers, the in-memory allTracked set, the pending
cookie-suppression slot unCookieNext, and the reload grace flag. -/
structure EngineState where
  autoBlockThreshold : Nat
  blocked : String → BlockedVal
  trackers : List (String × List String)
  allTracked : List String
  unCookieNext : Option String
  acceptForReload : Bool

/-- Cookie presence check: Services.cookies.countCookiesFromHost > 0. -/
def isCookied (env : Env) (t : String) : Bool :=
  decide (env.cookieCount t > 0)

/-- Number of tracked sites recorded for a tracker (0 when absent). -/
def countSites (s : EngineState) (t : String) : Nat :=
  match lookupTracker s.trackers t with
  | some sites => sites.length
  | none => 0

/-- The auto-block value computed by updateAutoBlock before comparison with
the stored one: undefined for cookie-less trackers, otherwise thresholded on
the number of tracked sites, with directly-browsed trackers capped at
"cookie". -/
def newBlockedValue (env : Env) (s : EngineState) (t : String) : BlockedVal :=
  if isCookied env t then
    if countSites s t ≥ s.autoBlockThreshold * CONNECTION_MULTIPLIER then
      if t ∈ s.allTracked then .cookie else .connection
    else if countSites s t ≥ s.autoBlockThreshold then .cookie
    else .undefined
  else .undefined

/-- updateAutoBlock: skip user-set (numeric) values, otherwise recompute the
auto value and store it when it changed; returns the new state and whether
the stored value changed. -/
def updateAutoBlock (env : Env) (s : EngineState) (t : String) :
    EngineState × Bool :=
  if isNum (s.blocked t) then (s, false)
  else
    let nb := newBlockedValue env s t
    if nb ≠ s.blocked t then
      ({ s with blocked := fun d => if d = t then nb else s.blocked d }, true)
    else (s, false)

/-- The ledger update of shouldLoad (lines 115-125): create the tracker
entry if missing; when the context site is new for this tracker, record it,
mark the site as tracked, and re-run the Auto-Block Policy for the tracker.
Returns whether the (tracker, site) pair was new. The entry-creation step
(lines 116-118) is split out as ensureTracker. -/
def ensureTracker (s : EngineState) (td : String) : EngineState :=
  match lookupTracker s.trackers td with
  | none => { s with trackers := setTracker s.trackers td [] }
  | some _ => s

def recordObservation (env : Env) (s : EngineState) (td cd : String) :
    Bool × EngineState :=
  let s0 := ensureTracker s td
  match lookupTracker s0.trackers td with
  | none => (false, s0)
  | some sites =>
    if cd ∈ sites then (false, s0)
    else
      let s1 := { s0 with
        trackers := setTracker s0.trackers td (sites ++ [cd]),
        allTracked := addSite s0.allTracked cd }
      (true, (updateAutoBlock env s1 td).1)

/-- updateAllAutoBlocked: re-run the policy over every tracker key. -/
def updateAllAutoBlocked (env : Env) (s : EngineState) : EngineState :=
  (s.trackers.map Prod.fst).foldl (fun acc t => (updateAutoBlock env acc t).1) s

/-- The set_threshold handler: store the new threshold, then re-evaluate the
policy for every tracker. -/
def setThreshold (env : Env) (s : EngineState) (n : Nat) : EngineState :=
  updateAllAutoBlocked env { s with autoBlockThreshold := n }

/-- The toggle_block handler (explicit user action): blocked[t] becomes the
number coerced from the negated truthiness of the old value. -/
def toggleBlock (s : EngineState) (t : String) : EngineState :=
  { s with blocked := fun d =>
      if d = t then .num (if truthy (s.blocked t) then 0 else 1)
      else s.blocked d }

/-- The reset handler (clear all user overrides): restore the default
threshold, empty the blocked map, and re-evaluate every tracker. -/
def resetAll (env : Env) (s : EngineState) : EngineState :=
  updateAllAutoBlocked env
    { s with autoBlockThreshold := DEFAULT_AUTO_BLOCK_THRESHOLD,
             blocked := fun _ => .undefined }

/-- Automatic (non-user) operations on the engine: an observed request's
ledger update with its policy re-evaluation, or a threshold change with its
full re-evaluation. -/
inductive AutoOp where
  | record : Env → String → String → AutoOp
  | setThresh : Env → Nat → AutoOp

def applyAutoOp : AutoOp → EngineState → EngineState
  | .record env td cd, s => (recordObservation env s td cd).2
  | .setThresh env n, s => setThreshold env s n

def applyAutoOps (ops : List AutoOp) (s : EngineState) : EngineState :=
  ops.foldl (fun acc op => applyAutoOp op acc) s

/-- Verdicts of the content policy. -/
inductive Verdict where
  | ACCEPT : Verdict
  | REJECT : Verdict
deriving DecidableEq, Repr

/-- The cookie-suppression arm step: unCookieNext = contentLocation.spec,
overwriting whatever the slot held. -/
def arm (_slot : Option String) (u : String) : Option String :=
  some u

/-- The unCookier observer on http-on-modify-request, as a function of the
pending slot and the request url: returns whether the cookie header is
stripped and the slot afterwards. An empty slot returns early; a full slot
strips on exact match and is cleared unconditionally. -/
def consume (slot : Option String) (url : String) : Bool × Option String :=
  match slot with
  | none => (false, none)
  | some v => (decide (v = url), none)

/-- A request as seen by shouldLoad. The context-dependent external calls
(private-browsing check, base-domain classification) may fail, as may the
later internal steps (ledger update, policy evaluation, enforcement lookup),
modelled by Except-valued fields consulted in program order inside the
try block. -/
structure Request where
  contentType : Nat
  isPrivate : Except Unit Bool
  trackerDomain : Except Unit String
  contextDomain : Except Unit String
  spec : String
  ledgerFault : Except Unit Unit
  policyFault : Except Unit Unit
  enforceFault : Except Unit Unit

/-- The enforcement tail of shouldLoad (lines 127-136): arm the suppression
slot and accept for "cookie"/potential trackers, reject truthy stored
values, otherwise fall through (none). -/
def enforcementStep (env : Env) (s : EngineState) (td url : String) :
    Option Verdict × EngineState :=
  if s.blocked td = .cookie ∨ env.potentialTrackers td then
    (some .ACCEPT, { s with unCookieNext := some url })
  else if truthy (s.blocked td) then (some .REJECT, s)
  else (none, s)

/-- The body of the try block of shouldLoad (lines 91-136): the early-accept
checks, the ledger update with policy re-evaluation, and the enforcement
tail. Errors abort the body, leaving the state reached so far; an ok none
result falls through to the final ACCEPT. -/
def tryBody (env : Env) (r : Request) (s : EngineState) :
    Except Unit (Option Verdict) × EngineState :=
  if r.contentType = TYPE_DOCUMENT then (.ok (some .ACCEPT), s)
  else match r.isPrivate with
  | .error e => (.error e, s)
  | .ok priv =>
    if priv then (.ok (some .ACCEPT), s)
    else match r.trackerDomain with
    | .error e => (.error e, s)
    | .ok td => match r.contextDomain with
      | .error e => (.error e, s)
      | .ok cd =>
        if td = cd then (.ok (some .ACCEPT), s)
        else if env.knownNotTrackers td then (.ok (some .ACCEPT), s)
        else match r.ledgerFault with
        | .error e => (.error e, s)
        | .ok _ =>
          let s1 := (recordObservation env s td cd).2
          match r.policyFault with
          | .error e => (.error e, s1)
          | .ok _ => match r.enforceFault with
            | .error e => (.error e, s1)
            | .ok _ => match enforcementStep env s1 td r.spec with
              | (some v, s2) => (.ok (some v), s2)
              | (none, s2) => (.ok none, s2)

/-- shouldLoad: the reload grace flag bypasses everything; otherwise run the
try body, mapping a caught error or a fall-through to the final ACCEPT. -/
def shouldLoad (env : Env) (s : EngineState) (r : Request) :
    Verdict × EngineState :=
  if s.acceptForReload then (.ACCEPT, s)
  else match tryBody env r s with
  | (.ok (some v), s') => (v, s')
  | (.ok none, s') => (.ACCEPT, s')
  | (.error _, s') => (.ACCEPT, s')

/-- Grace-window state: the acceptForReload flag together with the
deactivation times of the setTimeout callbacks still pending. -/
structure GraceState where
  active : Bool
  pending : List Nat
deriving DecidableEq, Repr

/-- The onReload handler: set the flag and schedule a deactivation a fixed
duration from now. -/
def onReload (s : GraceState) (now : Nat) : GraceState :=
  { active := true,
    pending := s.pending ++ [now + RELOAD_AUTO_ACCEPT_DURATION] }

/-- Firing of a pending setTimeout callback: it unconditionally clears the
flag, whichever trigger scheduled it. -/
def fireTimeout (s : GraceState) (t : Nat) : GraceState :=
  if t ∈ s.pending then { active := false, pending := s.pending.erase t }
  else s

/-- Specification-side auto level, written from the claim: None for a
cookie-less tracker regardless of site count; otherwise Connection iff the
site count reaches twice the threshold and the tracker is not directly
browsed, Cookie when that doubled bar is met for a directly browsed tracker
or the count is between the thresholds, and None below the threshold. -/
def specAutoLevel (cc n lo : Nat) (browsed : Bool) : Level :=
  if cc = 0 then .none
  else if n ≥ lo * 2 ∧ browsed = false then .connection
  else if (n ≥ lo * 2 ∧ browsed = true) ∨ (lo ≤ n ∧ n < lo * 2) then .cookie
  else .none

/-- Concrete environment used to instantiate proved theorems: every domain
has one cookie and both preference lists are empty. -/
def envW : Env :=
  ⟨fun _ => 1, fun _ => false, fun _ => false⟩

/-- Concrete engine state: one tracker observed on two sites, threshold 2. -/
def sW : EngineState :=
  { autoBlockThreshold := 2,
    blocked := fun _ => .undefined,
    trackers := [("tk.example", ["a.example", "b.example"])],
    allTracked := ["a.example", "b.example"],
    unCookieNext := none,
    acceptForReload := false }

/-- Concrete engine state for an unvisited tracker at the doubled
threshold: four tracked sites, threshold 2, tracker not itself tracked. -/
def sW6 : EngineState :=
  { autoBlockThreshold := 2,
    blocked := fun _ => .undefined,
    trackers :=
      [("x.example", ["a.example", "b.example", "c.example", "d.example"])],
    allTracked := ["a.example", "b.example", "c.example", "d.example"],
    unCookieNext := none,
    acceptForReload := false }

/-- Concrete engine state with a user-set entry for tk.example. -/
def sWu : EngineState :=
  toggleBlock sW "tk.example"

/-- Concrete sequence of automatic operations: a new observation for the
user-set tracker followed by a threshold change. -/
def opsW : List AutoOp :=
  [AutoOp.record envW "tk.example" "c.example", AutoOp.setThresh envW 7]

/-- Concrete engine state whose stored entry for tk.example agrees with the
policy value at the current threshold. -/
def sW7 : EngineState :=
  (updateAutoBlock envW sW "tk.example").1

/-- Concrete third-party request whose ledger-update step fails. -/
def rW : Request :=
  { contentType := 0,
    isPrivate := .ok false,
    trackerDomain := .ok "tk.example",
    contextDomain := .ok "site.example",
    spec := "https://tk.example/a.js",
    ledgerFault := .error (),
    policyFault := .ok (),
    enforceFault := .ok () }

/-- Concrete top-level document request. -/
def rDoc : Request :=
  { contentType := TYPE_DOCUMENT,
    isPrivate := .ok false,
    trackerDomain := .ok "tk.example",
    contextDomain := .ok "site.example",
    spec := "https://tk.example/",
    ledgerFault := .ok (),
    policyFault := .ok (),
    enforceFault := .ok () }

/-- Helper: for a non-user-set entry, updateAutoBlock leaves the tracker's
stored value equal to the freshly computed auto value (it stores it when it
changed and keeps the identical old value otherwise). -/
theorem updateAutoBlock_blocked_self (env : Env) (s : EngineState)
    (t : String) (h : isNum (s.blocked t) = false) :
    (updateAutoBlock env s t).1.blocked t = newBlockedValue env s t := by
  simp only [updateAutoBlock, h, Bool.false_eq_true, if_false]
  by_cases hne : newBlockedValue env s t ≠ s.blocked t
  · simp [hne]
  · push_neg at hne
    simp [hne]

/-- Helper: the computed auto value agrees with the specification-side level
function on cookie count, site count, threshold and direct browsing. -/
theorem newBlockedValue_eq_spec (env : Env) (s : EngineState) (t : String) :
    levelOfVal (newBlockedValue env s t) =
      specAutoLevel (env.cookieCount t) (countSites s t)
        s.autoBlockThreshold (decide (t ∈ s.allTracked)) := by
  unfold newBlockedValue specAutoLevel isCookied CONNECTION_MULTIPLIER
  by_cases hmem : t ∈ s.allTracked <;>
    split_ifs <;> simp_all [levelOfVal] <;> omega

/-- C1: for a tracker whose stored enforcement entry is not user-set, a
policy evaluation stores exactly the specified auto level: None for a
cookie-less tracker regardless of site count, otherwise Connection, Cookie
or None by the two thresholds and the direct-browsing exemption. -/
theorem c1_auto_level (env : Env) (s : EngineState) (t : String)
    (h : isNum (s.blocked t) = false) :
    levelOfVal ((updateAutoBlock env s t).1.blocked t) =
      specAutoLevel (env.cookieCount t) (countSites s t)
        s.autoBlockThreshold (decide (t ∈ s.allTracked)) := by
  rw [updateAutoBlock_blocked_self env s t h, newBlockedValue_eq_spec]

theorem c1_auto_level_witness :
    isNum (sW.blocked "tk.example") = false ∧
    levelOfVal ((updateAutoBlock envW sW "tk.example").1.blocked "tk.example") =
      specAutoLevel (envW.cookieCount "tk.example")
        (countSites sW "tk.example") sW.autoBlockThreshold
        (decide ("tk.example" ∈ sW.allTracked)) :=
  ⟨by decide, c1_auto_level envW sW "tk.example" (by decide)⟩

/-- C6: the computed auto level of a directly browsed tracker is never
Connection, whatever the site count; and a cookied tracker at or above the
doubled threshold that is not directly browsed computes Connection, never
Cookie. -/
theorem c6_connection_invariant (env : Env) (s : EngineState) (t : String) :
    (t ∈ s.allTracked → newBlockedValue env s t ≠ .connection) ∧
    (0 < env.cookieCount t →
      countSites s t ≥ s.autoBlockThreshold * CONNECTION_MULTIPLIER →
      t ∉ s.allTracked → newBlockedValue env s t = .connection) := by
  constructor
  · intro hmem
    unfold newBlockedValue isCookied
    split_ifs <;> simp_all
  · intro hcc hhi hmem
    unfold newBlockedValue isCookied
    simp [hcc, hhi, hmem]

theorem c6_connection_invariant_witness :
    0 < envW.cookieCount "x.example" ∧
    countSites sW6 "x.example" ≥
      sW6.autoBlockThreshold * CONNECTION_MULTIPLIER ∧
    ("x.example" ∉ sW6.allTracked) ∧
    newBlockedValue envW sW6 "x.example" = .connection :=
  ⟨by decide, by decide, by decide,
    (c6_connection_invariant envW sW6 "x.example").2
      (by decide) (by decide) (by decide)⟩

/-- Helper: updateAutoBlock never touches the trackers ledger. -/
theorem updateAutoBlock_trackers (env : Env) (s : EngineState) (u : String) :
    (updateAutoBlock env s u).1.trackers = s.trackers := by
  unfold updateAutoBlock
  dsimp only
  split_ifs <;> rfl

/-- Helper: updateAutoBlock never touches the allTracked set. -/
theorem updateAutoBlock_allTracked (env : Env) (s : EngineState)
    (u : String) : (updateAutoBlock env s u).1.allTracked = s.allTracked := by
  unfold updateAutoBlock
  dsimp only
  split_ifs <;> rfl

/-- Helper: updateAutoBlock never touches the threshold. -/
theorem updateAutoBlock_threshold (env : Env) (s : EngineState)
    (u : String) :
    (updateAutoBlock env s u).1.autoBlockThreshold = s.autoBlockThreshold := by
  unfold updateAutoBlock
  dsimp only
  split_ifs <;> rfl

/-- Helper: a user-set (numeric) entry survives any single policy
re-evaluation, whether for the same tracker (explicitly skipped) or for a
different one (whose update cannot touch this key). -/
theorem updateAutoBlock_preserves_num (env : Env) (s : EngineState)
    (u t : String) (k : Nat) (h : s.blocked t = .num k) :
    (updateAutoBlock env s u).1.blocked t = .num k := by
  by_cases heq : u = t
  · subst heq
    have hn : isNum (s.blocked u) = true := by rw [h]; rfl
    simp [updateAutoBlock, hn, h, isNum]
  · have ht : t ≠ u := fun hh => heq hh.symm
    unfold updateAutoBlock
    dsimp only
    split_ifs <;> simp [ht, h]

/-- Helper: ensureTracker only touches the trackers ledger. -/
theorem ensureTracker_blocked (s : EngineState) (td : String) :
    (ensureTracker s td).blocked = s.blocked := by
  unfold ensureTracker
  split <;> rfl

/-- Helper: ensureTracker leaves the allTracked set unchanged. -/
theorem ensureTracker_allTracked (s : EngineState) (td : String) :
    (ensureTracker s td).allTracked = s.allTracked := by
  unfold ensureTracker
  split <;> rfl

/-- Helper: looking up the key just set yields the value just set. -/
theorem lookupTracker_setTracker_self (l : List (String × List String))
    (k : String) (v : List String) :
    lookupTracker (setTracker l k v) k = some v := by
  induction l with
  | nil => simp [setTracker, lookupTracker]
  | cons p rest ih =>
    obtain ⟨a, b⟩ := p
    by_cases h : a = k
    · simp [setTracker, lookupTracker, h]
    · simp [setTracker, lookupTracker, h, ih]

/-- Helper: after ensureTracker the tracker's entry exists. -/
theorem lookupTracker_ensureTracker_self (s : EngineState) (td : String) :
    ∃ sites, lookupTracker (ensureTracker s td).trackers td = some sites := by
  unfold ensureTracker
  cases hl : lookupTracker s.trackers td with
  | none => exact ⟨[], by simp [lookupTracker_setTracker_self]⟩
  | some sites => exact ⟨sites, by simpa using hl⟩

/-- Helper: a user-set entry survives a full recordObservation call. -/
theorem recordObservation_preserves_num (env : Env) (s : EngineState)
    (td cd t : String) (k : Nat) (h : s.blocked t = .num k) :
    (recordObservation env s td cd).2.blocked t = .num k := by
  have hb : (ensureTracker s td).blocked t = .num k := by
    rw [ensureTracker_blocked]
    exact h
  unfold recordObservation
  dsimp only
  cases hl : lookupTracker (ensureTracker s td).trackers td with
  | none => simpa using hb
  | some sites =>
    by_cases hmem : cd ∈ sites
    · simpa [hmem] using hb
    · simp only [hmem, if_false]
      exact updateAutoBlock_preserves_num env _ td t k hb

/-- Helper: a user-set entry survives a fold of policy re-evaluations. -/
theorem foldl_updateAutoBlock_preserves_num (env : Env) (keys : List String)
    (s : EngineState) (t : String) (k : Nat) (h : s.blocked t = .num k) :
    (keys.foldl (fun acc u => (updateAutoBlock env acc u).1) s).blocked t =
      .num k := by
  induction keys generalizing s with
  | nil => simpa using h
  | cons u rest ih =>
    simp only [List.foldl_cons]
    exact ih _ (updateAutoBlock_preserves_num env s u t k h)

/-- Helper: a user-set entry survives any single automatic operation. -/
theorem applyAutoOp_preserves_num (op : AutoOp) (s : EngineState)
    (t : String) (k : Nat) (h : s.blocked t = .num k) :
    (applyAutoOp op s).blocked t = .num k := by
  cases op with
  | record env td cd => exact recordObservation_preserves_num env s td cd t k h
  | setThresh env n =>
    show (updateAllAutoBlocked env _).blocked t = .num k
    unfold updateAllAutoBlocked
    exact foldl_updateAutoBlock_preserves_num env _ _ t k h

/-- C2: a tracker entry of origin UserSet (a numeric stored value) is left
unchanged by every automatic policy re-evaluation, under any number of
recordObservation calls and threshold changes, until an explicit user
action changes it. -/
theorem c2_userset_sticky (ops : List AutoOp) (s : EngineState) (t : String)
    (k : Nat) (h : s.blocked t = .num k) :
    (applyAutoOps ops s).blocked t = .num k := by
  induction ops generalizing s with
  | nil => simpa [applyAutoOps] using h
  | cons op rest ih =>
    simp only [applyAutoOps, List.foldl_cons]
    exact ih _ (applyAutoOp_preserves_num op s t k h)

theorem c2_userset_sticky_witness :
    sWu.blocked "tk.example" = .num 1 ∧
    (applyAutoOps opsW sWu).blocked "tk.example" = .num 1 :=
  ⟨by decide, c2_userset_sticky opsW sWu "tk.example" 1 (by decide)⟩

/-- Helper: when the site is already a member of the tracker's set,
recordObservation is a no-op returning isNew = false. -/
theorem recordObservation_member_noop (env : Env) (s : EngineState)
    (td cd : String) (sites : List String)
    (hl : lookupTracker s.trackers td = some sites) (hmem : cd ∈ sites) :
    recordObservation env s td cd = (false, s) := by
  have he : ensureTracker s td = s := by
    unfold ensureTracker
    rw [hl]
  unfold recordObservation
  dsimp only
  rw [he, hl]
  simp [hmem]

/-- Helper: when the site is not yet a member, isNew is true. -/
theorem recordObservation_isNew (env : Env) (s : EngineState)
    (td cd : String)
    (h : ∀ sites, lookupTracker s.trackers td = some sites → cd ∉ sites) :
    (recordObservation env s td cd).1 = true := by
  unfold recordObservation
  dsimp only
  cases hl : lookupTracker s.trackers td with
  | none =>
    have he : ensureTracker s td =
        { s with trackers := setTracker s.trackers td [] } := by
      unfold ensureTracker
      rw [hl]
    rw [he]
    simp [lookupTracker_setTracker_self]
  | some sites =>
    have he : ensureTracker s td = s := by
      unfold ensureTracker
      rw [hl]
    rw [he, hl]
    simp [h sites hl]

/-- Helper: after recordObservation the site is a member of the tracker's
recorded set. -/
theorem recordObservation_mem_after (env : Env) (s : EngineState)
    (td cd : String) :
    ∃ sites, lookupTracker (recordObservation env s td cd).2.trackers td =
      some sites ∧ cd ∈ sites := by
  obtain ⟨sites0, hl0⟩ := lookupTracker_ensureTracker_self s td
  unfold recordObservation
  dsimp only
  rw [hl0]
  by_cases hmem : cd ∈ sites0
  · exact ⟨sites0, by simp [hmem, hl0], hmem⟩
  · refine ⟨sites0 ++ [cd], ?_, by simp⟩
    simp only [hmem, if_false]
    rw [updateAutoBlock_trackers]
    exact lookupTracker_setTracker_self _ td (sites0 ++ [cd])

/-- C8: recordObservation returns isNew = false exactly when the site is
already a member of the tracker's set, in which case the whole engine state
is unchanged (so no policy re-evaluation happens); and a repeated call for
the same (tracker, site) pair is always such a no-op, bounding policy
re-evaluation to at most once per unique pair. -/
theorem c8_record_once (env : Env) (s : EngineState) (td cd : String) :
    ((recordObservation env s td cd).1 = false ↔
      ∃ sites, lookupTracker s.trackers td = some sites ∧ cd ∈ sites) ∧
    (∀ sites, lookupTracker s.trackers td = some sites → cd ∈ sites →
      recordObservation env s td cd = (false, s)) ∧
    recordObservation env (recordObservation env s td cd).2 td cd =
      (false, (recordObservation env s td cd).2) := by
  refine ⟨⟨?_, ?_⟩, ?_, ?_⟩
  · intro hf
    by_contra hm
    push_neg at hm
    have := recordObservation_isNew env s td cd hm
    rw [hf] at this
    exact Bool.false_ne_true this
  · rintro ⟨sites, hl, hmem⟩
    rw [recordObservation_member_noop env s td cd sites hl hmem]
  · intro sites hl hmem
    exact recordObservation_member_noop env s td cd sites hl hmem
  · obtain ⟨sites, hl, hmem⟩ := recordObservation_mem_after env s td cd
    exact recordObservation_member_noop env _ td cd sites hl hmem

theorem c8_record_once_witness :
    lookupTracker sW.trackers "tk.example" = some ["a.example", "b.example"] ∧
    "a.example" ∈ ["a.example", "b.example"] ∧
    recordObservation envW sW "tk.example" "a.example" = (false, sW) :=
  ⟨by decide, by decide,
    (c8_record_once envW sW "tk.example" "a.example").2.1
      ["a.example", "b.example"] (by decide) (by decide)⟩

/-- Helper: the computed auto value is never a user-set number. -/
theorem newBlockedValue_isNum (env : Env) (s : EngineState) (t : String) :
    isNum (newBlockedValue env s t) = false := by
  unfold newBlockedValue
  split_ifs <;> rfl

/-- Helper: a policy update for another tracker cannot touch this key. -/
theorem updateAutoBlock_blocked_other (env : Env) (s : EngineState)
    (u t : String) (hut : ¬u = t) :
    (updateAutoBlock env s u).1.blocked t = s.blocked t := by
  have ht : t ≠ u := fun hh => hut hh.symm
  unfold updateAutoBlock
  dsimp only
  split_ifs <;> simp [ht]

/-- Helper: the computed auto value only depends on the ledger, the
allTracked set and the threshold. -/
theorem newBlockedValue_congr (env : Env) (s s' : EngineState) (t : String)
    (h1 : s'.trackers = s.trackers) (h2 : s'.allTracked = s.allTracked)
    (h3 : s'.autoBlockThreshold = s.autoBlockThreshold) :
    newBlockedValue env s' t = newBlockedValue env s t := by
  unfold newBlockedValue countSites
  rw [h1, h2, h3]

/-- Helper: a fold of policy re-evaluations leaves the ledger unchanged. -/
theorem foldl_updateAutoBlock_trackers (env : Env) (keys : List String)
    (s : EngineState) :
    (keys.foldl (fun acc u => (updateAutoBlock env acc u).1) s).trackers =
      s.trackers := by
  induction keys generalizing s with
  | nil => rfl
  | cons u rest ih =>
    simp only [List.foldl_cons]
    rw [ih, updateAutoBlock_trackers]

/-- Helper: a fold of policy re-evaluations leaves allTracked unchanged. -/
theorem foldl_updateAutoBlock_allTracked (env : Env) (keys : List String)
    (s : EngineState) :
    (keys.foldl (fun acc u => (updateAutoBlock env acc u).1) s).allTracked =
      s.allTracked := by
  induction keys generalizing s with
  | nil => rfl
  | cons u rest ih =>
    simp only [List.foldl_cons]
    rw [ih, updateAutoBlock_allTracked]

/-- Helper: a fold of policy re-evaluations leaves the threshold
unchanged. -/
theorem foldl_updateAutoBlock_threshold (env : Env) (keys : List String)
    (s : EngineState) :
    (keys.foldl
      (fun acc u => (updateAutoBlock env acc u).1) s).autoBlockThreshold =
      s.autoBlockThreshold := by
  induction keys generalizing s with
  | nil => rfl
  | cons u rest ih =>
    simp only [List.foldl_cons]
    rw [ih, updateAutoBlock_threshold]

/-- Helper: after a fold of policy re-evaluations over a key list, a
non-user-set entry whose key occurs in the list holds the policy value
computed from the initial state, and any other entry is unchanged. -/
theorem foldl_updateAutoBlock_blocked (env : Env) (keys : List String)
    (s : EngineState) (t : String) (h : isNum (s.blocked t) = false) :
    (keys.foldl (fun acc u => (updateAutoBlock env acc u).1) s).blocked t =
      if t ∈ keys then newBlockedValue env s t else s.blocked t := by
  induction keys generalizing s with
  | nil => simp
  | cons u rest ih =>
    simp only [List.foldl_cons]
    by_cases hut : u = t
    · subst hut
      have hb1 : (updateAutoBlock env s u).1.blocked u =
          newBlockedValue env s u := updateAutoBlock_blocked_self env s u h
      have hnn : isNum ((updateAutoBlock env s u).1.blocked u) = false := by
        rw [hb1]
        exact newBlockedValue_isNum env s u
      rw [ih _ hnn]
      have hc : newBlockedValue env (updateAutoBlock env s u).1 u =
          newBlockedValue env s u :=
        newBlockedValue_congr env s _ u (updateAutoBlock_trackers env s u)
          (updateAutoBlock_allTracked env s u)
          (updateAutoBlock_threshold env s u)
      by_cases hmem : u ∈ rest
      · simp [hmem, hc]
      · simp [hmem, hb1]
    · have htu : t ≠ u := fun hh => hut hh.symm
      have hb1 : (updateAutoBlock env s u).1.blocked t = s.blocked t :=
        updateAutoBlock_blocked_other env s u t hut
      have hnn : isNum ((updateAutoBlock env s u).1.blocked t) = false := by
        rw [hb1]
        exact h
      rw [ih _ hnn, hb1]
      have hc : newBlockedValue env (updateAutoBlock env s u).1 t =
          newBlockedValue env s t :=
        newBlockedValue_congr env s _ t (updateAutoBlock_trackers env s u)
          (updateAutoBlock_allTracked env s u)
          (updateAutoBlock_threshold env s u)
      by_cases hmem : t ∈ rest <;> simp [hmem, hc, htu]

/-- Helper: after set_threshold, a non-user-set entry whose tracker occurs
in the ledger holds the policy value at the new threshold; other entries
are unchanged. -/
theorem setThreshold_blocked (env : Env) (s : EngineState) (n : Nat)
    (t : String) (h : isNum (s.blocked t) = false) :
    (setThreshold env s n).blocked t =
      if t ∈ s.trackers.map Prod.fst then
        newBlockedValue env { s with autoBlockThreshold := n } t
      else s.blocked t := by
  unfold setThreshold updateAllAutoBlocked
  exact foldl_updateAutoBlock_blocked env _ _ t h

/-- Helper: raising the threshold without touching the ledger can only
lower the computed auto level, and cannot compute a fresh Connection. -/
theorem newBlockedValue_raise_threshold (env : Env) (s : EngineState)
    (t : String) (n' : Nat) (hle : s.autoBlockThreshold ≤ n') :
    levelOrd (levelOfVal
        (newBlockedValue env { s with autoBlockThreshold := n' } t)) ≤
      levelOrd (levelOfVal (newBlockedValue env s t)) ∧
    (newBlockedValue env { s with autoBlockThreshold := n' } t =
        .connection → newBlockedValue env s t = .connection) := by
  unfold newBlockedValue countSites isCookied CONNECTION_MULTIPLIER
  dsimp only
  split_ifs <;> simp_all [levelOfVal, levelOrd] <;> omega

/-- Helper: set_threshold leaves every tracker's site count unchanged. -/
theorem setThreshold_countSites (env : Env) (s : EngineState) (n : Nat)
    (t : String) : countSites (setThreshold env s n) t = countSites s t := by
  unfold countSites setThreshold updateAllAutoBlocked
  rw [foldl_updateAutoBlock_trackers]

/-- C7: for a tracker whose non-user-set stored level agrees with the
policy at the current threshold, raising the threshold and re-running the
policy over all trackers keeps the site count unchanged and can only keep
the stored level or move it toward Cookie or None; it never turns a level
that was not Connection into Connection. -/
theorem c7_threshold_monotone (env : Env) (s : EngineState) (t : String)
    (n' : Nat) (hsync : s.blocked t = newBlockedValue env s t)
    (hle : s.autoBlockThreshold ≤ n') :
    levelOrd (levelOfVal ((setThreshold env s n').blocked t)) ≤
      levelOrd (levelOfVal (s.blocked t)) ∧
    ((setThreshold env s n').blocked t = .connection →
      s.blocked t = .connection) ∧
    countSites (setThreshold env s n') t = countSites s t := by
  have hnn : isNum (s.blocked t) = false := by
    rw [hsync]
    exact newBlockedValue_isNum env s t
  have hb := setThreshold_blocked env s n' t hnn
  have hcore := newBlockedValue_raise_threshold env s t n' hle
  refine ⟨?_, ?_, setThreshold_countSites env s n' t⟩
  · rw [hb]
    by_cases hmem : t ∈ s.trackers.map Prod.fst
    · rw [if_pos hmem, hsync]
      exact hcore.1
    · rw [if_neg hmem]
  · rw [hb]
    by_cases hmem : t ∈ s.trackers.map Prod.fst
    · rw [if_pos hmem, hsync]
      exact hcore.2
    · rw [if_neg hmem]
      exact fun hh => hh

theorem c7_threshold_monotone_witness :
    sW7.blocked "tk.example" = newBlockedValue envW sW7 "tk.example" ∧
    sW7.autoBlockThreshold ≤ 3 ∧
    (levelOrd (levelOfVal ((setThreshold envW sW7 3).blocked "tk.example")) ≤
        levelOrd (levelOfVal (sW7.blocked "tk.example")) ∧
      ((setThreshold envW sW7 3).blocked "tk.example" = .connection →
        sW7.blocked "tk.example" = .connection) ∧
      countSites (setThreshold envW sW7 3) "tk.example" =
        countSites sW7 "tk.example") :=
  ⟨by decide, by decide,
    c7_threshold_monotone envW sW7 "tk.example" 3 (by decide) (by decide)⟩

/-- C4: consume returns true iff a value was armed and equals the request
url; the slot is empty after every call regardless of match or absence;
consume returns true at most once per arm call; and after arm u1 followed by
a mismatched consume u2, a later consume u1 returns false. -/
theorem c4_consume_semantics (slot : Option String) (url u1 u2 : String) :
    ((consume slot url).1 = true ↔ slot = some url) ∧
    (consume slot url).2 = none ∧
    (consume ((consume (arm slot u1) u1).2) u1).1 = false ∧
    (u2 ≠ u1 →
      (consume (arm slot u1) u2).1 = false ∧
      (consume ((consume (arm slot u1) u2).2) u1).1 = false) := by
  refine ⟨?_, ?_, ?_, ?_⟩
  · cases slot <;> simp [consume]
  · cases slot <;> simp [consume]
  · simp [consume, arm]
  · intro h
    refine ⟨?_, ?_⟩
    · simp only [consume, arm, decide_eq_false_iff_not]
      exact fun hh => h hh.symm
    · simp [consume, arm]

theorem c4_consume_semantics_witness :
    ("b" : String) ≠ "a" ∧
    ((consume (arm none "a") "b").1 = false ∧
      (consume ((consume (arm none "a") "b").2) "a").1 = false) :=
  ⟨by decide, (c4_consume_semantics none "x" "a" "b").2.2.2 (by decide)⟩

/-- C9 as stated is refuted: after reload triggers at times 0 and 5000, the
deactivation scheduled by the first trigger is still pending and fires at
time 10000, clearing the active flag, although the fixed-duration window of
the last trigger (started at 5000) has not yet elapsed at 10000. -/
theorem c9_counterexample :
    (fireTimeout (onReload (onReload ⟨false, []⟩ 0) 5000) 10000).active = false ∧
    10000 ∈ (onReload (onReload ⟨false, []⟩ 0) 5000).pending ∧
    10000 < 5000 + RELOAD_AUTO_ACCEPT_DURATION := by
  refine ⟨?_, ?_, ?_⟩
  · decide
  · decide
  · decide

/-- C9 amended: every pending scheduled deactivation clears the active flag
unconditionally when it fires — including one scheduled by an earlier
trigger while a later trigger's window has not yet elapsed; the window thus
stays active only until the earliest still-pending deactivation fires. -/
theorem c9_amended_fire_clears (s : GraceState) (t : Nat)
    (h : t ∈ s.pending) : (fireTimeout s t).active = false := by
  simp [fireTimeout, h]

theorem c9_amended_fire_clears_witness :
    (fireTimeout ⟨true, [10000]⟩ 10000).active = false :=
  c9_amended_fire_clears ⟨true, [10000]⟩ 10000 (by decide)

/-- Helper: only the stored value "cookie" carries the Cookie level. -/
theorem levelOfVal_eq_cookie (b : BlockedVal) :
    levelOfVal b = .cookie ↔ b = .cookie := by
  cases b <;> simp [levelOfVal]
  split_ifs <;> simp

/-- Helper: a non-cookie value of Connection level is truthy. -/
theorem levelOfVal_eq_connection_truthy (b : BlockedVal)
    (hnc : b ≠ .cookie) (h : levelOfVal b = .connection) :
    truthy b = true := by
  cases b with
  | undefined => simp [levelOfVal] at h
  | cookie => exact absurd rfl hnc
  | connection => rfl
  | num n =>
    simp only [levelOfVal] at h
    by_cases hn : n = 0
    · rw [if_pos hn] at h
      exact absurd h (by simp)
    · simp [truthy, hn]

/-- Helper: a value of None level is falsy. -/
theorem levelOfVal_none_not_truthy (b : BlockedVal)
    (h : levelOfVal b = .none) : truthy b = false := by
  cases b with
  | undefined => rfl
  | cookie => simp [levelOfVal] at h
  | connection => simp [levelOfVal] at h
  | num n =>
    simp only [levelOfVal] at h
    by_cases hn : n = 0
    · simp [truthy, hn]
    · rw [if_neg hn] at h
      exact absurd h (by simp)

/-- C3: at the enforcement step, a stored Cookie level (of either origin)
or membership in potentialTrackers arms the suppression slot with the
request's url and accepts; otherwise a stored Connection level rejects
without arming; otherwise the request falls through (final ACCEPT) without
arming. -/
theorem c3_enforcement (env : Env) (s : EngineState) (td url : String) :
    (levelOfVal (s.blocked td) = .cookie ∨
        env.potentialTrackers td = true →
      enforcementStep env s td url =
        (some .ACCEPT, { s with unCookieNext := some url })) ∧
    (¬(levelOfVal (s.blocked td) = .cookie ∨
        env.potentialTrackers td = true) →
      levelOfVal (s.blocked td) = .connection →
      enforcementStep env s td url = (some .REJECT, s)) ∧
    (¬(levelOfVal (s.blocked td) = .cookie ∨
        env.potentialTrackers td = true) →
      levelOfVal (s.blocked td) = .none →
      enforcementStep env s td url = (none, s)) := by
  refine ⟨?_, ?_, ?_⟩
  · rintro (h | h)
    · have hb := (levelOfVal_eq_cookie _).mp h
      unfold enforcementStep
      simp [hb]
    · unfold enforcementStep
      simp [h]
  · intro hnc hconn
    have hbc : s.blocked td ≠ .cookie := fun hh =>
      hnc (Or.inl (by rw [hh]; rfl))
    have hpt : env.potentialTrackers td = false :=
      Bool.eq_false_iff.mpr (fun hh => hnc (Or.inr hh))
    have ht := levelOfVal_eq_connection_truthy _ hbc hconn
    unfold enforcementStep
    simp [hbc, hpt, ht]
  · intro hnc hnone
    have hbc : s.blocked td ≠ .cookie := fun hh =>
      hnc (Or.inl (by rw [hh]; rfl))
    have hpt : env.potentialTrackers td = false :=
      Bool.eq_false_iff.mpr (fun hh => hnc (Or.inr hh))
    have ht := levelOfVal_none_not_truthy _ hnone
    unfold enforcementStep
    simp [hbc, hpt, ht]

theorem c3_enforcement_witness :
    (levelOfVal (sW7.blocked "tk.example") = .cookie ∨
      envW.potentialTrackers "tk.example" = true) ∧
    enforcementStep envW sW7 "tk.example" "https://tk.example/a.js" =
      (some .ACCEPT,
        { sW7 with unCookieNext := some "https://tk.example/a.js" }) :=
  ⟨Or.inl (by decide),
    (c3_enforcement envW sW7 "tk.example" "https://tk.example/a.js").1
      (Or.inl (by decide))⟩

/-- C5: a failure raised at any step inside the try block — classification,
ledger update, policy evaluation, enforcement lookup — makes shouldLoad
return ACCEPT: the pipeline fails open, never rejects and never propagates
an internal error. -/
theorem c5_fail_open (env : Env) (s : EngineState) (r : Request) (e : Unit)
    (s' : EngineState) (h : tryBody env r s = (.error e, s')) :
    (shouldLoad env s r).1 = .ACCEPT := by
  unfold shouldLoad
  by_cases hr : s.acceptForReload = true
  · simp [hr]
  · simp only [hr, if_false, Bool.false_eq_true]
    rw [h]

theorem c5_fail_open_witness :
    tryBody envW rW sW = (.error (), sW) ∧
    (shouldLoad envW sW rW).1 = .ACCEPT :=
  ⟨rfl, c5_fail_open envW sW rW () sW rfl⟩

/-- C10: every early-accept exit of the pipeline — grace window active,
top-level document load, private-browsing context, first-party request,
known not-tracker domain — returns ACCEPT with the engine state unchanged:
no ledger or allTracked update, no enforcement change, and the pending
suppression slot neither armed nor cleared. -/
theorem c10_early_accept_pure (env : Env) (s : EngineState) (r : Request) :
    (s.acceptForReload = true → shouldLoad env s r = (.ACCEPT, s)) ∧
    (r.contentType = TYPE_DOCUMENT → shouldLoad env s r = (.ACCEPT, s)) ∧
    (r.isPrivate = .ok true → shouldLoad env s r = (.ACCEPT, s)) ∧
    (∀ d, r.trackerDomain = .ok d → r.contextDomain = .ok d →
      shouldLoad env s r = (.ACCEPT, s)) ∧
    (∀ d, r.trackerDomain = .ok d → env.knownNotTrackers d = true →
      shouldLoad env s r = (.ACCEPT, s)) := by
  refine ⟨?_, ?_, ?_, ?_, ?_⟩
  · intro h
    simp [shouldLoad, h]
  · intro h
    by_cases hr : s.acceptForReload = true
    · simp [shouldLoad, hr]
    · simp [shouldLoad, tryBody, hr, h]
  · intro h
    by_cases hr : s.acceptForReload = true
    · simp [shouldLoad, hr]
    · by_cases hct : r.contentType = TYPE_DOCUMENT
      · simp [shouldLoad, tryBody, hr, hct]
      · simp [shouldLoad, tryBody, hr, hct, h]
  · intro d h1 h2
    by_cases hr : s.acceptForReload = true
    · simp [shouldLoad, hr]
    · by_cases hct : r.contentType = TYPE_DOCUMENT
      · simp [shouldLoad, tryBody, hr, hct]
      · cases hp : r.isPrivate with
        | error e => simp [shouldLoad, tryBody, hr, hct, hp]
        | ok b =>
          cases b with
          | true => simp [shouldLoad, tryBody, hr, hct, hp]
          | false => simp [shouldLoad, tryBody, hr, hct, hp, h1, h2]
  · intro d h1 h2
    by_cases hr : s.acceptForReload = true
    · simp [shouldLoad, hr]
    · by_cases hct : r.contentType = TYPE_DOCUMENT
      · simp [shouldLoad, tryBody, hr, hct]
      · cases hp : r.isPrivate with
        | error e => simp [shouldLoad, tryBody, hr, hct, hp]
        | ok b =>
          cases b with
          | true => simp [shouldLoad, tryBody, hr, hct, hp]
          | false =>
            cases hcd : r.contextDomain with
            | error e => simp [shouldLoad, tryBody, hr, hct, hp, h1, hcd]
            | ok cd =>
              by_cases hdc : d = cd
              · simp [shouldLoad, tryBody, hr, hct, hp, h1, hcd, hdc]
              · simp [shouldLoad, tryBody, hr, hct, hp, h1, hcd, hdc, h2]

theorem c10_early_accept_pure_witness :
    rDoc.contentType = TYPE_DOCUMENT ∧
    shouldLoad envW sW rDoc = (.ACCEPT, sW) :=
  ⟨rfl, (c10_early_accept_pure envW sW rDoc).2.1 rfl⟩

end AboutTrackers
